import Mathlib

/-!
Verification of the travel-expense reimbursement calculator
(src/solution.py) against its natural-language specification.

The Python function is pure arithmetic over numeric inputs.  We embed it
shallowly over the exact rationals: `days : ℤ` (the Python signature takes
an integer) and `miles receipts : ℚ` (the spec contract is
`compute(days: integer, miles: number, receipts: number)`).  All decimal
constants of the source (0.59, 0.44, 0.08, ...) are exact rationals, so
every arithmetic identity below is exact.
-/

set_option linter.unusedVariables false

namespace Reimb

/-- The linear baseline of step 1 of the pipeline, from line 35 of
src/solution.py: `base_amount = 61 * days + 0.59 * miles + 0.44 * receipts + 5`. -/
def base_amount (days : ℤ) (miles receipts : ℚ) : ℚ :=
  61 * (days : ℚ) + 0.59 * miles + 0.44 * receipts + 5

/-- Shallow embedding of `calculate_reimbursement` from src/solution.py,
lines 18-97, mirroring the source statement by statement: the running
`adjustments` accumulator is threaded through the rule groups in the order
of the source, and the result is clamped with `max _ 0`. -/
def calculate_reimbursement (days : ℤ) (miles receipts : ℚ) : ℚ :=
  let b := base_amount days miles receipts
  let adjustments : ℚ := 0
  -- Short trip premium (lines 41-44)
  let adjustments :=
    if days = 1 then adjustments + b * 0.08
    else if days = 2 then adjustments + b * 0.04
    else adjustments
  -- 5-day / 6-day trip bonus (lines 47-50)
  let adjustments :=
    if days = 5 then adjustments + b * 0.04
    else if days = 6 then adjustments + b * 0.02
    else adjustments
  -- Efficiency bonus bands on miles per day (lines 53-60)
  let adjustments :=
    if days > 0 then
      let miles_per_day := miles / (days : ℚ)
      if 180 ≤ miles_per_day ∧ miles_per_day ≤ 220 then adjustments + b * 0.04
      else if 150 ≤ miles_per_day ∧ miles_per_day < 180 then adjustments + b * 0.015
      else if 220 < miles_per_day ∧ miles_per_day ≤ 280 then adjustments + b * 0.015
      else adjustments
    else adjustments
  -- Tiered mileage adjustment (lines 63-66)
  let adjustments :=
    if miles > 100 then adjustments - (miles - 100) * 0.59 * 0.08
    else adjustments
  -- Receipt sweet spot (lines 69-70)
  let adjustments :=
    if 600 ≤ receipts ∧ receipts ≤ 800 then adjustments + b * 0.03
    else adjustments
  -- Low receipt penalty for multi-day trips (lines 73-74)
  let adjustments :=
    if days > 1 ∧ receipts < 50 then adjustments - b * 0.02
    else adjustments
  -- High receipt cap (lines 77-80)
  let adjustments :=
    if receipts > 1500 then adjustments - (receipts - 1500) * 0.44 * 0.35
    else adjustments
  -- Interaction bonuses (lines 83-93)
  let adjustments :=
    if days > 0 then
      let miles_per_day := miles / (days : ℚ)
      let receipts_per_day := receipts / (days : ℚ)
      let adjustments :=
        if days = 5 ∧ miles_per_day ≥ 180 ∧ receipts_per_day < 100
        then adjustments + b * 0.05
        else adjustments
      if days ≥ 8 ∧ receipts_per_day > 150
      then adjustments - b * 0.05
      else adjustments
    else adjustments
  max (base_amount days miles receipts + adjustments) 0

/-- Shallow embedding of `predict_reimbursement` (lines 100-102), the
compatibility alias: it simply forwards to `calculate_reimbursement`. -/
def predict_reimbursement (days : ℤ) (miles receipts : ℚ) : ℚ :=
  calculate_reimbursement days miles receipts

/-! ### The ten rule deltas of spec section 4
Each delta is an independent function of the inputs, and every percentage
delta is a percentage of the ORIGINAL `base_amount`. -/

/-- Rule delta: day-1 premium, +8% of base (line 42). -/
def day1Delta (days : ℤ) (miles receipts : ℚ) : ℚ :=
  if days = 1 then base_amount days miles receipts * 0.08 else 0

/-- Rule delta: day-2 premium, +4% of base (line 44). -/
def day2Delta (days : ℤ) (miles receipts : ℚ) : ℚ :=
  if days = 2 then base_amount days miles receipts * 0.04 else 0

/-- Rule delta: 5-day trip bonus, +4% of base (line 48). -/
def day5Delta (days : ℤ) (miles receipts : ℚ) : ℚ :=
  if days = 5 then base_amount days miles receipts * 0.04 else 0

/-- Rule delta: 6-day trip bonus, +2% of base (line 50). -/
def day6Delta (days : ℤ) (miles receipts : ℚ) : ℚ :=
  if days = 6 then base_amount days miles receipts * 0.02 else 0

/-- Rule delta: efficiency sweet spot bands on miles per day (lines 53-60),
guarded by `days > 0`. -/
def efficiencyDelta (days : ℤ) (miles receipts : ℚ) : ℚ :=
  if days > 0 then
    let miles_per_day := miles / (days : ℚ)
    if 180 ≤ miles_per_day ∧ miles_per_day ≤ 220 then base_amount days miles receipts * 0.04
    else if 150 ≤ miles_per_day ∧ miles_per_day < 180 then base_amount days miles receipts * 0.015
    else if 220 < miles_per_day ∧ miles_per_day ≤ 280 then base_amount days miles receipts * 0.015
    else 0
  else 0

/-- Rule delta: tiered mileage diminishing return beyond 100 miles
(lines 63-66); a direct linear term, not a percentage of base. -/
def mileageDelta (days : ℤ) (miles receipts : ℚ) : ℚ :=
  if miles > 100 then -((miles - 100) * 0.59 * 0.08) else 0

/-- Rule delta: receipt sweet spot 600-800, +3% of base (lines 69-70). -/
def receiptSweetDelta (days : ℤ) (miles receipts : ℚ) : ℚ :=
  if 600 ≤ receipts ∧ receipts ≤ 800 then base_amount days miles receipts * 0.03 else 0

/-- Rule delta: low-receipt penalty on multi-day trips, -2% of base
(lines 73-74). -/
def lowReceiptDelta (days : ℤ) (miles receipts : ℚ) : ℚ :=
  if days > 1 ∧ receipts < 50 then -(base_amount days miles receipts * 0.02) else 0

/-- Rule delta: high-receipt cap beyond 1500 (lines 77-80); a direct
linear term. -/
def highReceiptDelta (days : ℤ) (miles receipts : ℚ) : ℚ :=
  if receipts > 1500 then -((receipts - 1500) * 0.44 * 0.35) else 0

/-- Rule delta: interaction bonuses (lines 83-93), guarded by `days > 0`:
the sweet-spot combo bonus +5% and the long-trip high-spending penalty -5%. -/
def comboDelta (days : ℤ) (miles receipts : ℚ) : ℚ :=
  if days > 0 then
    (if days = 5 ∧ miles / (days : ℚ) ≥ 180 ∧ receipts / (days : ℚ) < 100
     then base_amount days miles receipts * 0.05 else 0)
    + (if days ≥ 8 ∧ receipts / (days : ℚ) > 150
       then -(base_amount days miles receipts * 0.05) else 0)
  else 0

/-- The ten rule deltas of spec section 4, in pipeline order. -/
def ruleDeltas (days : ℤ) (miles receipts : ℚ) : List ℚ :=
  [day1Delta days miles receipts, day2Delta days miles receipts,
   day5Delta days miles receipts, day6Delta days miles receipts,
   efficiencyDelta days miles receipts, mileageDelta days miles receipts,
   receiptSweetDelta days miles receipts, lowReceiptDelta days miles receipts,
   highReceiptDelta days miles receipts, comboDelta days miles receipts]

/-- The same pipeline as `calculate_reimbursement` with the tiered-mileage
rule (lines 63-66 of src/solution.py) removed, and nothing else changed.
It is the reference point for stating the effect of the tiering rule. -/
def calculate_reimbursement_no_tier (days : ℤ) (miles receipts : ℚ) : ℚ :=
  let b := base_amount days miles receipts
  let adjustments : ℚ := 0
  let adjustments :=
    if days = 1 then adjustments + b * 0.08
    else if days = 2 then adjustments + b * 0.04
    else adjustments
  let adjustments :=
    if days = 5 then adjustments + b * 0.04
    else if days = 6 then adjustments + b * 0.02
    else adjustments
  let adjustments :=
    if days > 0 then
      let miles_per_day := miles / (days : ℚ)
      if 180 ≤ miles_per_day ∧ miles_per_day ≤ 220 then adjustments + b * 0.04
      else if 150 ≤ miles_per_day ∧ miles_per_day < 180 then adjustments + b * 0.015
      else if 220 < miles_per_day ∧ miles_per_day ≤ 280 then adjustments + b * 0.015
      else adjustments
    else adjustments
  let adjustments :=
    if 600 ≤ receipts ∧ receipts ≤ 800 then adjustments + b * 0.03
    else adjustments
  let adjustments :=
    if days > 1 ∧ receipts < 50 then adjustments - b * 0.02
    else adjustments
  let adjustments :=
    if receipts > 1500 then adjustments - (receipts - 1500) * 0.44 * 0.35
    else adjustments
  let adjustments :=
    if days > 0 then
      let miles_per_day := miles / (days : ℚ)
      let receipts_per_day := receipts / (days : ℚ)
      let adjustments :=
        if days = 5 ∧ miles_per_day ≥ 180 ∧ receipts_per_day < 100
        then adjustments + b * 0.05
        else adjustments
      if days ≥ 8 ∧ receipts_per_day > 150
      then adjustments - b * 0.05
      else adjustments
    else adjustments
  max (base_amount days miles receipts + adjustments) 0

/-! ### Accumulator step lemmas
Each statement block of the source updates the `adjustments` accumulator;
each lemma turns one such update into `acc + delta`, with the delta in the
shape of the corresponding rule-delta definition above. -/

lemma short_step (d : ℤ) (b acc : ℚ) :
    (if d = 1 then acc + b * 0.08 else if d = 2 then acc + b * 0.04 else acc)
      = acc + ((if d = 1 then b * 0.08 else 0) + (if d = 2 then b * 0.04 else 0)) := by
  split_ifs <;> first | (exfalso; omega) | ring

lemma mid_step (d : ℤ) (b acc : ℚ) :
    (if d = 5 then acc + b * 0.04 else if d = 6 then acc + b * 0.02 else acc)
      = acc + ((if d = 5 then b * 0.04 else 0) + (if d = 6 then b * 0.02 else 0)) := by
  split_ifs <;> first | (exfalso; omega) | ring

lemma eff_step (d : ℤ) (m b acc : ℚ) :
    (if d > 0 then
      if 180 ≤ m / (d : ℚ) ∧ m / (d : ℚ) ≤ 220 then acc + b * 0.04
      else if 150 ≤ m / (d : ℚ) ∧ m / (d : ℚ) < 180 then acc + b * 0.015
      else if 220 < m / (d : ℚ) ∧ m / (d : ℚ) ≤ 280 then acc + b * 0.015
      else acc
     else acc)
      = acc + (if d > 0 then
          if 180 ≤ m / (d : ℚ) ∧ m / (d : ℚ) ≤ 220 then b * 0.04
          else if 150 ≤ m / (d : ℚ) ∧ m / (d : ℚ) < 180 then b * 0.015
          else if 220 < m / (d : ℚ) ∧ m / (d : ℚ) ≤ 280 then b * 0.015
          else 0
        else 0) := by
  split_ifs <;> ring

lemma mileage_step (m acc : ℚ) :
    (if m > 100 then acc - (m - 100) * 0.59 * 0.08 else acc)
      = acc + (if m > 100 then -((m - 100) * 0.59 * 0.08) else 0) := by
  split_ifs <;> ring

lemma sweet_step (r b acc : ℚ) :
    (if 600 ≤ r ∧ r ≤ 800 then acc + b * 0.03 else acc)
      = acc + (if 600 ≤ r ∧ r ≤ 800 then b * 0.03 else 0) := by
  split_ifs <;> ring

lemma low_step (d : ℤ) (r b acc : ℚ) :
    (if d > 1 ∧ r < 50 then acc - b * 0.02 else acc)
      = acc + (if d > 1 ∧ r < 50 then -(b * 0.02) else 0) := by
  split_ifs <;> ring

lemma high_step (r acc : ℚ) :
    (if r > 1500 then acc - (r - 1500) * 0.44 * 0.35 else acc)
      = acc + (if r > 1500 then -((r - 1500) * 0.44 * 0.35) else 0) := by
  split_ifs <;> ring

lemma combo_step (d : ℤ) (m r b acc : ℚ) :
    (if d > 0 then
      if d ≥ 8 ∧ r / (d : ℚ) > 150
      then (if d = 5 ∧ m / (d : ℚ) ≥ 180 ∧ r / (d : ℚ) < 100 then acc + b * 0.05 else acc)
             - b * 0.05
      else (if d = 5 ∧ m / (d : ℚ) ≥ 180 ∧ r / (d : ℚ) < 100 then acc + b * 0.05 else acc)
     else acc)
      = acc + (if d > 0 then
          (if d = 5 ∧ m / (d : ℚ) ≥ 180 ∧ r / (d : ℚ) < 100 then b * 0.05 else 0)
          + (if d ≥ 8 ∧ r / (d : ℚ) > 150 then -(b * 0.05) else 0)
        else 0) := by
  split_ifs <;> ring

/-- The central decomposition: the sequential accumulator pipeline of the
source equals the base amount plus the sum of the ten independent rule
deltas, clamped at 0. -/
lemma calculate_eq_deltas (days : ℤ) (miles receipts : ℚ) :
    calculate_reimbursement days miles receipts
      = max (base_amount days miles receipts + (ruleDeltas days miles receipts).sum) 0 := by
  simp only [calculate_reimbursement]
  rw [short_step, mid_step, eff_step, mileage_step, sweet_step, low_step, high_step, combo_step]
  simp only [ruleDeltas, day1Delta, day2Delta, day5Delta, day6Delta, efficiencyDelta,
    mileageDelta, receiptSweetDelta, lowReceiptDelta, highReceiptDelta, comboDelta,
    List.sum_cons, List.sum_nil]
  congr 1
  ring

/-! ### The claims -/

/-- C1: for every input, `calculate_reimbursement` returns
`max (base_amount + adjustments) 0` where `adjustments` is the sum of the
ten rule deltas of spec section 4, every percentage delta computed against
the original `base_amount`; summing the deltas in any order (any
permutation of the list) gives the same result. -/
theorem claim1_sum_of_rule_deltas (days : ℤ) (miles receipts : ℚ) (l : List ℚ)
    (hl : l.Perm (ruleDeltas days miles receipts)) :
    calculate_reimbursement days miles receipts
      = max (base_amount days miles receipts + l.sum) 0 := by
  rw [List.Perm.sum_eq hl, calculate_eq_deltas]

/-- Witness for C1 at (5, 1000, 400), with the rule deltas summed in
reversed order. -/
theorem claim1_sum_of_rule_deltas_witness :
    calculate_reimbursement 5 1000 400
      = max (base_amount 5 1000 400 + (ruleDeltas 5 1000 400).reverse.sum) 0 :=
  claim1_sum_of_rule_deltas 5 1000 400 (ruleDeltas 5 1000 400).reverse
    (List.reverse_perm (ruleDeltas 5 1000 400))

/-- C2: for every input, including negative or otherwise nonsensical
values, the result of `calculate_reimbursement` is nonnegative. -/
theorem claim2_nonneg (days : ℤ) (miles receipts : ℚ) :
    0 ≤ calculate_reimbursement days miles receipts := by
  simp only [calculate_reimbursement]
  exact le_max_right _ _

/-- C3: for `days = 0` the two per-day-ratio rule groups (efficiency and
combo) contribute 0, the function still evaluates to the base amount plus
the remaining eight rule deltas, and in particular
`calculate_reimbursement 0 100 100` evaluates (with no division error
possible in the embedding, since the guarded groups vanish) to 108. -/
theorem claim3_zero_day_guard (miles receipts : ℚ) :
    efficiencyDelta 0 miles receipts = 0 ∧
    comboDelta 0 miles receipts = 0 ∧
    calculate_reimbursement 0 miles receipts
      = max (base_amount 0 miles receipts +
          (day1Delta 0 miles receipts + day2Delta 0 miles receipts +
           day5Delta 0 miles receipts + day6Delta 0 miles receipts +
           mileageDelta 0 miles receipts + receiptSweetDelta 0 miles receipts +
           lowReceiptDelta 0 miles receipts + highReceiptDelta 0 miles receipts)) 0 ∧
    calculate_reimbursement 0 100 100 = 108 := by
  have h1 : efficiencyDelta 0 miles receipts = 0 := by simp [efficiencyDelta]
  have h2 : comboDelta 0 miles receipts = 0 := by simp [comboDelta]
  refine ⟨h1, h2, ?_, ?_⟩
  · rw [calculate_eq_deltas]
    simp only [ruleDeltas, List.sum_cons, List.sum_nil]
    rw [h1, h2]
    congr 1
    ring
  · norm_num [calculate_reimbursement, base_amount]

/-- C4: `calculate_reimbursement 1 0 2000` has base 946; only the day-1
premium (+8% of base) and the high-receipt excess penalty (-77) fire, all
other rule deltas are 0, and the result is `946 * 1.08 - 77 = 944.68`. -/
theorem claim4_receipt_cap :
    base_amount 1 0 2000 = 946 ∧
    day1Delta 1 0 2000 = 946 * 0.08 ∧
    highReceiptDelta 1 0 2000 = -77 ∧
    day2Delta 1 0 2000 = 0 ∧ day5Delta 1 0 2000 = 0 ∧ day6Delta 1 0 2000 = 0 ∧
    efficiencyDelta 1 0 2000 = 0 ∧ mileageDelta 1 0 2000 = 0 ∧
    receiptSweetDelta 1 0 2000 = 0 ∧ lowReceiptDelta 1 0 2000 = 0 ∧
    comboDelta 1 0 2000 = 0 ∧
    calculate_reimbursement 1 0 2000 = 944.68 := by
  norm_num [base_amount, day1Delta, day2Delta, day5Delta, day6Delta, efficiencyDelta,
    mileageDelta, receiptSweetDelta, lowReceiptDelta, highReceiptDelta, comboDelta,
    calculate_reimbursement]

/-- C5: in `calculate_reimbursement 5 1000 400`, miles per day is 200
(inside the 180-220 band) and receipts per day is 80 (below 100), so the
5-day bonus (+4%), the efficiency bonus (+4%) and the combo bonus (+5%)
all apply simultaneously, each as a percentage of the same original base
amount. -/
theorem claim5_sweet_spot_combo :
    (180 ≤ (1000 : ℚ) / 5 ∧ (1000 : ℚ) / 5 ≤ 220) ∧
    (400 : ℚ) / 5 < 100 ∧
    day5Delta 5 1000 400 = base_amount 5 1000 400 * 0.04 ∧
    efficiencyDelta 5 1000 400 = base_amount 5 1000 400 * 0.04 ∧
    comboDelta 5 1000 400 = base_amount 5 1000 400 * 0.05 ∧
    calculate_reimbursement 5 1000 400
      = max (base_amount 5 1000 400 * (1 + 0.04 + 0.04 + 0.05)
          + mileageDelta 5 1000 400) 0 := by
  norm_num [day5Delta, efficiencyDelta, comboDelta, base_amount, mileageDelta,
    calculate_reimbursement]

/-- C6: `calculate_reimbursement 3 50 0` has no excess-mileage penalty
(miles at most 100, so it agrees with the pipeline without the tiering
rule), while `calculate_reimbursement 3 200 0` is exactly
`(200 - 100) * 0.59 * 0.08 = 4.72` below the otherwise-identical
computation without the tiered-mileage rule; the low-receipt penalty fires
equally in both computations. -/
theorem claim6_mileage_tiering :
    mileageDelta 3 50 0 = 0 ∧
    calculate_reimbursement 3 50 0 = calculate_reimbursement_no_tier 3 50 0 ∧
    calculate_reimbursement 3 200 0
      = calculate_reimbursement_no_tier 3 200 0 - (200 - 100) * 0.59 * 0.08 ∧
    ((200 : ℚ) - 100) * 0.59 * 0.08 = 4.72 ∧
    lowReceiptDelta 3 50 0 = -(base_amount 3 50 0 * 0.02) ∧
    lowReceiptDelta 3 200 0 = -(base_amount 3 200 0 * 0.02) := by
  norm_num [mileageDelta, calculate_reimbursement, calculate_reimbursement_no_tier,
    lowReceiptDelta, base_amount]

/-- C7: negative inputs are not validated or rejected: they go through the
very same arithmetic pipeline (base amount plus the ten rule deltas,
clamped), and the result is still nonnegative thanks to the final floor. -/
theorem claim7_negative_inputs (days : ℤ) (miles receipts : ℚ)
    (h : days < 0 ∨ miles < 0 ∨ receipts < 0) :
    calculate_reimbursement days miles receipts
      = max (base_amount days miles receipts + (ruleDeltas days miles receipts).sum) 0 ∧
    0 ≤ calculate_reimbursement days miles receipts :=
  ⟨calculate_eq_deltas days miles receipts, by
    rw [calculate_eq_deltas]
    exact le_max_right _ _⟩

/-- Witness for C7 at the all-negative input (-1, -5, -10). -/
theorem claim7_negative_inputs_witness :
    ((-1 : ℤ) < 0 ∨ (-5 : ℚ) < 0 ∨ (-10 : ℚ) < 0) ∧
    (calculate_reimbursement (-1) (-5) (-10)
       = max (base_amount (-1) (-5) (-10) + (ruleDeltas (-1) (-5) (-10)).sum) 0 ∧
     0 ≤ calculate_reimbursement (-1) (-5) (-10)) :=
  ⟨Or.inl (by norm_num),
   claim7_negative_inputs (-1) (-5) (-10) (Or.inl (by norm_num))⟩

/-- C8: the alias `predict_reimbursement` returns exactly the value of
`calculate_reimbursement` on every input. -/
theorem claim8_alias_agrees (days : ℤ) (miles receipts : ℚ) :
    predict_reimbursement days miles receipts
      = calculate_reimbursement days miles receipts := rfl

/-- C9: with all inputs zero the base amount is the flat constant 5, no
rule delta fires, and the result is the nonzero amount 5. -/
theorem claim9_all_zero_input :
    base_amount 0 0 0 = 5 ∧
    (ruleDeltas 0 0 0).sum = 0 ∧
    calculate_reimbursement 0 0 0 = 5 := by
  norm_num [base_amount, ruleDeltas, day1Delta, day2Delta, day5Delta, day6Delta,
    efficiencyDelta, mileageDelta, receiptSweetDelta, lowReceiptDelta, highReceiptDelta,
    comboDelta, calculate_reimbursement]

/-- C10: the function is not monotone in receipts: growing the receipts
from 800 to 801 with days = 1 and miles = 0 strictly decreases the result,
because leaving the 600-800 receipt sweet spot forfeits the +3% bonus
while the base grows only by 0.44 per receipt dollar. -/
theorem claim10_not_monotone_in_receipts :
    (∃ (days : ℤ) (miles r1 r2 : ℚ), r1 < r2 ∧
      calculate_reimbursement days miles r2 < calculate_reimbursement days miles r1) ∧
    calculate_reimbursement 1 0 801 < calculate_reimbursement 1 0 800 := by
  have h : calculate_reimbursement 1 0 801 < calculate_reimbursement 1 0 800 := by
    norm_num [calculate_reimbursement, base_amount]
  exact ⟨⟨1, 0, 800, 801, by norm_num, h⟩, h⟩

end Reimb
